import Mathlib

/-!
Shallow embedding of the session orchestration core of the whats-nya backend
(src/services/whatsapp/SessionManager.ts, src/services/whatsapp/SocketManager.ts,
src/models/Session.ts, src/models/Message.ts).

The orchestrator state carries the persistent session store (a list of session
records, `sessionId` unique per the schema), the in-memory client handle
registry (the `sessions: Map<string, Client>` field, modelled by the list of
registered sessionIds), the message and chat collections, the list of fan-out
events emitted through SocketManager (in emission order), and the list of
invocations of `startBackgroundSync` (the fire-and-forget launches performed by
the `ready` handler). External-SDK behaviour (which client initializations or
teardowns throw, the chat list returned by `getChats`, the messages returned by
`fetchMessages`) is passed in as explicit parameters.
-/

namespace WhatsNya

/-- Session lifecycle statuses, from the SessionStatus enum in src/types/index.ts. -/
inductive SessionStatus where
  | INITIALIZING
  | QR_SCAN_PENDING
  | SYNCING
  | READY
  | DISCONNECTED
  | FAILED
  deriving DecidableEq, Repr

/-- One persisted session record, from the mongoose schema in src/models/Session.ts
(timestamps and the mongo object id are omitted; `lastSyncedAt` is wall-clock only
and not observed by any property here). -/
structure SessionRec where
  sessionId : String
  userId : String
  status : SessionStatus
  phoneNumber : Option String
  qrCode : Option String
  syncProgress : Nat
  deriving DecidableEq, Repr

/-- One stored message row, from the mongoose schema in src/models/Message.ts
(media payload fields and read-tracking arrays are omitted; they are never read
by the orchestrator code under study). -/
structure MessageRow where
  sessionId : String
  chatId : String
  messageId : String
  body : String
  timestamp : Nat
  fromMe : Bool
  sender : String
  isGroupMsg : Bool
  ackStatus : Nat
  hasMedia : Bool
  isRead : Bool
  deriving DecidableEq, Repr

/-- One stored chat row, from the mongoose schema in src/models/Chat.ts as used by
the session manager (participants omitted). -/
structure ChatRow where
  sessionId : String
  chatId : String
  name : String
  isGroup : Bool
  lastMessage : String
  lastMessageTime : Nat
  unreadCount : Nat
  deriving DecidableEq, Repr

/-- The fields of an incoming whatsapp-web.js message object that the handlers
read: `message.from`, `message.id._serialized`, `message.body`,
`message.timestamp`, `message.fromMe`, `message.isGroupMsg`, `message.ack`,
`message.hasMedia`. -/
structure WMessage where
  msgFrom : String
  idSerialized : String
  body : String
  timestamp : Nat
  fromMe : Bool
  isGroupMsg : Bool
  ack : Nat
  hasMedia : Bool
  deriving DecidableEq, Repr

/-- Typed fan-out emissions of SocketManager, from the WSEvents enum in
src/types/index.ts and the emitQRCode / emitSessionStatus / emitSyncProgress /
emitMessage helpers (each addressed to the owning user's scope). -/
inductive FanoutEvent where
  | qr_code (sessionId userId qr : String)
  | session_status (sessionId userId : String) (status : SessionStatus)
  | sync_progress (sessionId userId : String) (progress : Nat)
  | message_received (sessionId userId messageId : String)
  deriving DecidableEq, Repr

/-- The orchestrator state: the persistent session store, the in-memory client
handle registry (sessionIds of live `Client` handles), the message and chat
collections, the fan-out events emitted so far (in order), and the log of
`startBackgroundSync` invocations made by the ready handler. -/
structure OrchState where
  db : List SessionRec
  registry : List String
  messages : List MessageRow
  chats : List ChatRow
  events : List FanoutEvent
  syncLaunches : List String
  deriving DecidableEq, Repr

/-- The empty orchestrator state (fresh process, empty store). -/
def emptyState : OrchState :=
  { db := [], registry := [], messages := [], chats := [], events := [], syncLaunches := [] }

/-- A fresh session record with the given status and no phone number or QR payload. -/
def mkSessionRec (sid uid : String) (status : SessionStatus) : SessionRec :=
  { sessionId := sid, userId := uid, status := status,
    phoneNumber := none, qrCode := none, syncProgress := 0 }

/-- Session.findOneAndUpdate filtered by sessionId: applies the update to the
matching record (sessionId is unique per the schema, so at most one matches). -/
def dbUpdate (db : List SessionRec) (sid : String) (f : SessionRec → SessionRec) :
    List SessionRec :=
  db.map (fun r => if r.sessionId == sid then f r else r)

/-- Session.findOne filtered by sessionId. -/
def findSession (db : List SessionRec) (sid : String) : Option SessionRec :=
  db.find? (fun r => r.sessionId == sid)

/-- The persisted status of a session, when the record exists. -/
def statusOf (db : List SessionRec) (sid : String) : Option SessionStatus :=
  (findSession db sid).map SessionRec.status

/-- The persisted phone number of a session, when set. -/
def phoneOf (db : List SessionRec) (sid : String) : Option String :=
  (findSession db sid).bind SessionRec.phoneNumber

/-- The persisted QR payload of a session, when set. -/
def qrOf (db : List SessionRec) (sid : String) : Option String :=
  (findSession db sid).bind SessionRec.qrCode

/-- The persisted syncProgress of a session, when the record exists. -/
def syncProgressOf (db : List SessionRec) (sid : String) : Option Nat :=
  (findSession db sid).map SessionRec.syncProgress

/-- Whether a message row with the given natural key is already stored; the
unique index on (messageId, sessionId) in src/models/Message.ts makes an
insertOne for an existing key fail with mongo error code 11000. -/
def hasMessageRow (msgs : List MessageRow) (sid mid : String) : Bool :=
  msgs.any (fun r => r.sessionId == sid && r.messageId == mid)

/-- Number of stored message rows carrying the given (sessionId, messageId) key. -/
def messageRowCount (msgs : List MessageRow) (sid mid : String) : Nat :=
  (msgs.filter (fun r => r.sessionId == sid && r.messageId == mid)).length

/-- Number of message_received fan-out events published for the given key. -/
def messageReceivedCount (evs : List FanoutEvent) (sid mid : String) : Nat :=
  (evs.filter (fun e =>
    match e with
    | FanoutEvent.message_received s _ m => s == sid && m == mid
    | _ => false)).length

/-- The document both ingestion paths build for Message.collection.insertOne: the
live handler passes `message.from` as the chatId, the sync task the chat's own
serialized id. -/
def mkMessageRow (sid chatId : String) (m : WMessage) : MessageRow :=
  { sessionId := sid, chatId := chatId, messageId := m.idSerialized,
    body := m.body, timestamp := m.timestamp, fromMe := m.fromMe,
    sender := m.msgFrom, isGroupMsg := m.isGroupMsg, ackStatus := m.ack,
    hasMedia := m.hasMedia, isRead := m.fromMe }

/-- The Chat.findOneAndUpdate performed by the live message handler (no upsert
option: when the chat row is absent this is a no-op). -/
def chatLiveUpdate (chats : List ChatRow) (sid : String) (m : WMessage) : List ChatRow :=
  chats.map (fun c =>
    if c.sessionId == sid && c.chatId == m.msgFrom then
      { c with lastMessage := m.body, lastMessageTime := m.timestamp,
               unreadCount := c.unreadCount + (if m.fromMe then 0 else 1) }
    else c)

/-- The live message event handler wired in setupClientHandlers. The insertOne
hits the unique (messageId, sessionId) index: on a duplicate key the call throws
code 11000, the surrounding catch absorbs it, and neither the emit nor the Chat
update runs. On a first insert the saved row is emitted to the owning user and
the chat preview/unread counter is updated. -/
def liveMessageHandler (st : OrchState) (sid uid : String) (m : WMessage) : OrchState :=
  if hasMessageRow st.messages sid m.idSerialized then
    st
  else
    { st with
      messages := st.messages ++ [mkMessageRow sid m.msgFrom m],
      events := st.events ++ [FanoutEvent.message_received sid uid m.idSerialized],
      chats := chatLiveUpdate st.chats sid m }

/-- The per-message insertOne inside startBackgroundSync: a duplicate key error
(code 11000) is absorbed by the inner catch; no fan-out event is published by
this path. -/
def syncIngestMessage (st : OrchState) (sid chatId : String) (m : WMessage) : OrchState :=
  if hasMessageRow st.messages sid m.idSerialized then
    st
  else
    { st with messages := st.messages ++ [mkMessageRow sid chatId m] }

/-- Message.findOneAndUpdate: updates the first row matching the filter. -/
def findOneAndUpdateMsg :
    List MessageRow → (MessageRow → Bool) → (MessageRow → MessageRow) → List MessageRow
  | [], _, _ => []
  | r :: rest, p, f => if p r then f r :: rest else r :: findOneAndUpdateMsg rest p f

/-- The message_ack handler wired in setupClientHandlers: writes the ack level
from the event into the stored row, with no comparison against the stored value. -/
def messageAckHandler (st : OrchState) (sid mid : String) (ack : Nat) : OrchState :=
  { st with messages :=
      (findOneAndUpdateMsg st.messages
        (fun r => r.sessionId == sid && r.messageId == mid)
        (fun r => { r with ackStatus := ack })) }

/-- The qr event handler wired in setupClientHandlers: persists QR_SCAN_PENDING
with the payload and emits a qr_code event to the owning user. It does not touch
the phoneNumber field. -/
def qrHandler (st : OrchState) (sid uid q : String) : OrchState :=
  { st with
    db := dbUpdate st.db sid
      (fun r => { r with status := SessionStatus.QR_SCAN_PENDING, qrCode := some q }),
    events := st.events ++ [FanoutEvent.qr_code sid uid q] }

/-- The ready event handler wired in setupClientHandlers: persists READY with the
phone number and a cleared QR payload, emits the status to the owning user, and
then invokes startBackgroundSync fire-and-forget. The invocation is recorded in
syncLaunches; there is no guard against an already-running sync task. -/
def readyHandler (st : OrchState) (sid uid phone : String) : OrchState :=
  { st with
    db := dbUpdate st.db sid (fun r =>
      { r with status := SessionStatus.READY, phoneNumber := some phone, qrCode := none }),
    events := st.events ++ [FanoutEvent.session_status sid uid SessionStatus.READY],
    syncLaunches := st.syncLaunches ++ [sid] }

/-- The auth_failure handler wired in setupClientHandlers: persists FAILED. It
makes no SocketManager call. -/
def authFailureHandler (st : OrchState) (sid : String) : OrchState :=
  { st with db := dbUpdate st.db sid (fun r => { r with status := SessionStatus.FAILED }) }

/-- The catch attached to client.initialize() in initializeClient: persists
FAILED and deletes the handle from the registry. It makes no SocketManager call. -/
def initFailureHandler (st : OrchState) (sid : String) : OrchState :=
  { st with
    db := dbUpdate st.db sid (fun r => { r with status := SessionStatus.FAILED }),
    registry := st.registry.filter (fun s => s ≠ sid) }

/-- The onDisconnected callback that WhatsAppController.createSession registers
for the session it creates: it emits session_status DISCONNECTED to the owning
user through the fan-out. -/
def controllerOnDisconnected (sid uid : String) (st : OrchState) : OrchState :=
  { st with
    events := st.events ++ [FanoutEvent.session_status sid uid SessionStatus.DISCONNECTED] }

/-- The disconnected handler wired in setupClientHandlers: persists DISCONNECTED,
awaits the caller-registered onDisconnected callback when one was supplied, and
deletes the handle from the registry. The handler itself makes no SocketManager
call: any fan-out emission for this transition comes from the registered
callback — WhatsAppController.createSession registers controllerOnDisconnected,
while the startup restoration path registers no callbacks. -/
def disconnectedHandler (st : OrchState) (sid : String)
    (onDisconnected : Option (OrchState → OrchState)) : OrchState :=
  let st1 := { st with
    db := dbUpdate st.db sid (fun r => { r with status := SessionStatus.DISCONNECTED }) }
  let st2 := match onDisconnected with
    | none => st1
    | some f => f st1
  { st2 with registry := st2.registry.filter (fun s => s ≠ sid) }

/-- Session.getActiveSessionsCount from src/models/Session.ts: the number of the
user's sessions whose status is READY or SYNCING. -/
def getActiveSessionsCount (db : List SessionRec) (uid : String) : Nat :=
  (db.filter (fun r => r.userId == uid &&
    (r.status == SessionStatus.READY || r.status == SessionStatus.SYNCING))).length

/-- createSession from SessionManager: throws a capacity error when the user
already has maxSessionsPerUser active sessions — before any store or registry
mutation — and otherwise persists a fresh record in INITIALIZING and registers a
client handle for the fresh sessionId (the synchronous part of initializeClient). -/
def createSession (st : OrchState) (uid newSid : String) (maxPerUser : Nat) :
    Except String String × OrchState :=
  if maxPerUser ≤ getActiveSessionsCount st.db uid then
    (Except.error "Maximum sessions allowed", st)
  else
    (Except.ok newSid,
     { st with
       db := st.db ++ [mkSessionRec newSid uid SessionStatus.INITIALIZING],
       registry := st.registry ++ [newSid] })

/-- destroySession from SessionManager. The call to client.destroy() is not
wrapped in try/catch, so when teardown throws the error propagates to the caller
before the registry delete and before the DISCONNECTED write; `destroyFails`
models whether client.destroy() throws for the registered handle. -/
def destroySession (st : OrchState) (sid : String) (destroyFails : Bool) :
    Except String OrchState :=
  if st.registry.contains sid then
    if destroyFails then
      Except.error "destroy failed"
    else
      Except.ok
        { st with
          registry := st.registry.filter (fun s => s ≠ sid),
          db := dbUpdate st.db sid (fun r => { r with status := SessionStatus.DISCONNECTED }) }
  else
    Except.ok
      { st with db := dbUpdate st.db sid (fun r => { r with status := SessionStatus.DISCONNECTED }) }

/-- restoreSession from SessionManager: persists INITIALIZING, then re-opens a
client handle for the same sessionId via initializeClient; when that throws, the
catch persists FAILED and rethrows (the rethrow is what restoreSessions absorbs).
The `fails` oracle models which client re-opens throw. -/
def restoreSession (st : OrchState) (sid : String) (fails : String → Bool) : OrchState :=
  let st1 := { st with
    db := dbUpdate st.db sid (fun r => { r with status := SessionStatus.INITIALIZING }) }
  if fails sid then
    { st1 with
      db := dbUpdate st1.db sid (fun r => { r with status := SessionStatus.FAILED }) }
  else
    { st1 with registry := st1.registry ++ [sid] }

/-- Whether a persisted status is selected by the restoration query at startup. -/
def restorableStatus (s : SessionStatus) : Bool :=
  s == SessionStatus.READY || s == SessionStatus.SYNCING || s == SessionStatus.DISCONNECTED

/-- restoreSessions from SessionManager: snapshots the sessions whose status is
READY, SYNCING or DISCONNECTED and restores them one by one; each iteration
wraps restoreSession in its own try/catch, so a failed restore is absorbed and
the loop continues with the next session. -/
def restoreSessions (st : OrchState) (fails : String → Bool) : OrchState :=
  (st.db.filter (fun r => restorableStatus r.status)).foldl
    (fun acc r => restoreSession acc r.sessionId fails) st

/-- One remote conversation as returned by client.getChats(), together with the
window of recent messages that chat.fetchMessages({ limit: 50 }) returns for it. -/
structure SyncChat where
  chatId : String
  name : String
  isGroup : Bool
  unreadCount : Nat
  messages : List WMessage
  deriving DecidableEq, Repr

/-- Math.round on the nonnegative rational p / q (round half up), for q positive. -/
def jsRound (p q : Nat) : Nat := (2 * p + q) / (2 * q)

/-- The Chat.findOneAndUpdate with upsert performed per conversation by
startBackgroundSync (preview fields from messages[0], the first returned row). -/
def chatSyncUpsert (chats : List ChatRow) (sid : String) (c : SyncChat) : List ChatRow :=
  let row : ChatRow :=
    { sessionId := sid, chatId := c.chatId, name := c.name, isGroup := c.isGroup,
      lastMessage := ((c.messages.head?).map WMessage.body).getD "",
      lastMessageTime := ((c.messages.head?).map WMessage.timestamp).getD 0,
      unreadCount := c.unreadCount }
  if chats.any (fun r => r.sessionId == sid && r.chatId == c.chatId) then
    chats.map (fun r => if r.sessionId == sid && r.chatId == c.chatId then row else r)
  else
    chats ++ [row]

/-- One iteration of the conversation loop in startBackgroundSync: upsert the
chat row, ingest its recent messages through the idempotent path, then persist
and emit the per-conversation progress value (the progress write and emission
sit outside the per-chat try, so they run whether or not the chat synced). -/
def syncOneChat (st : OrchState) (sid uid : String) (c : SyncChat) (progress : Nat) :
    OrchState :=
  let st1 := { st with chats := chatSyncUpsert st.chats sid c }
  let st2 := c.messages.foldl (fun acc m => syncIngestMessage acc sid c.chatId m) st1
  { st2 with
    db := dbUpdate st2.db sid (fun r => { r with syncProgress := progress }),
    events := st2.events ++ [FanoutEvent.sync_progress sid uid progress] }

/-- The indexed conversation loop of startBackgroundSync; the progress after the
conversation at index i is Math.round(((i + 1) / totalChats) * 100). -/
def syncChatsLoop (sid uid : String) (total : Nat) :
    OrchState → List SyncChat → Nat → OrchState
  | st, [], _ => st
  | st, c :: rest, i =>
      syncChatsLoop sid uid total
        (syncOneChat st sid uid c (jsRound ((i + 1) * 100) total)) rest (i + 1)

/-- The opening writes of startBackgroundSync: persist SYNCING with syncProgress
0 and emit progress 0 to the owning user. -/
def syncStart (st : OrchState) (sid uid : String) : OrchState :=
  { st with
    db := dbUpdate st.db sid
      (fun r => { r with status := SessionStatus.SYNCING, syncProgress := 0 }),
    events := st.events ++ [FanoutEvent.sync_progress sid uid 0] }

/-- The closing writes of startBackgroundSync: persist READY with syncProgress
100 and emit the READY status to the owning user. -/
def syncFinish (st2 : OrchState) (sid uid : String) : OrchState :=
  { st2 with
    db := dbUpdate st2.db sid
      (fun r => { r with status := SessionStatus.READY, syncProgress := 100 }),
    events := st2.events ++ [FanoutEvent.session_status sid uid SessionStatus.READY] }

/-- The body of startBackgroundSync once the session record was found: opening
writes, the conversation loop, closing writes. -/
def syncPassBody (st : OrchState) (sid uid : String) (chats : List SyncChat) : OrchState :=
  syncFinish (syncChatsLoop sid uid chats.length (syncStart st sid uid) chats 0) sid uid

/-- startBackgroundSync from SessionManager: returns immediately when the session
record is gone; otherwise persists SYNCING with syncProgress 0 and emits progress
0, walks the chat list emitting per-conversation progress, and on completion
persists READY with syncProgress 100 and emits the READY status. -/
def startBackgroundSync (st : OrchState) (sid uid : String) (chats : List SyncChat) :
    OrchState :=
  match findSession st.db sid with
  | none => st
  | some _ => syncPassBody st sid uid chats

/-- The progress payloads of the sync_progress events in an emission log, in order. -/
def progressEvents (evs : List FanoutEvent) : List Nat :=
  evs.filterMap (fun e =>
    match e with
    | FanoutEvent.sync_progress _ _ p => some p
    | _ => none)

/-- External lifecycle events of one session's client handle, as consumed by the
handlers wired in setupClientHandlers. -/
inductive CEvent where
  | qr (q : String)
  | ready (phone : String)
  | authFailure
  | disconnected
  deriving DecidableEq, Repr

/-- Whether a lifecycle event is a qr event. -/
def isQrEvent : CEvent → Bool
  | CEvent.qr _ => true
  | _ => false

/-- Dispatch of one lifecycle event to the corresponding wired handler, with the
onDisconnected callback wiring that WhatsAppController.createSession registers. -/
def applyEvent (sid uid : String) (st : OrchState) : CEvent → OrchState
  | CEvent.qr q => qrHandler st sid uid q
  | CEvent.ready phone => readyHandler st sid uid phone
  | CEvent.authFailure => authFailureHandler st sid
  | CEvent.disconnected => disconnectedHandler st sid (some (controllerOnDisconnected sid uid))

/-- A sequence of lifecycle events processed in arrival order. -/
def applyEvents (sid uid : String) (st : OrchState) (evs : List CEvent) : OrchState :=
  evs.foldl (applyEvent sid uid) st

/-- Holds when no qr event occurs after a ready event in the sequence. -/
def noQrAfterReady : List CEvent → Bool
  | [] => true
  | CEvent.ready _ :: rest => rest.all (fun e => !(isQrEvent e))
  | _ :: rest => noQrAfterReady rest

/-- One invocation of the message ingestion path: either the live message event
handler or the per-message insert of the sync task. -/
inductive IngestOp where
  | live (m : WMessage)
  | sync (chatId : String) (m : WMessage)
  deriving DecidableEq, Repr

/-- The messageId carried by an ingestion invocation. -/
def opMessageId : IngestOp → String
  | IngestOp.live m => m.idSerialized
  | IngestOp.sync _ m => m.idSerialized

/-- The row an ingestion invocation inserts when the key is fresh. -/
def opRow (sid : String) : IngestOp → MessageRow
  | IngestOp.live m => mkMessageRow sid m.msgFrom m
  | IngestOp.sync chatId m => mkMessageRow sid chatId m

/-- Whether the invocation came from the live message event. -/
def opIsLive : IngestOp → Bool
  | IngestOp.live _ => true
  | IngestOp.sync _ _ => false

/-- Dispatch of one ingestion invocation. -/
def applyIngest (sid uid : String) (st : OrchState) : IngestOp → OrchState
  | IngestOp.live m => liveMessageHandler st sid uid m
  | IngestOp.sync chatId m => syncIngestMessage st sid chatId m

/-- A sequence of ingestion invocations, in the order the paths executed. -/
def applyIngests (sid uid : String) (st : OrchState) (ops : List IngestOp) : OrchState :=
  ops.foldl (applyIngest sid uid) st

/-- A concrete incoming message used by concrete runs below. -/
def wm (mid : String) (t : Nat) : WMessage :=
  { msgFrom := "c1", idSerialized := mid, body := "hello", timestamp := t,
    fromMe := false, isGroupMsg := false, ack := 1, hasMedia := false }

/-- A one-session store holding session s1 of user u1 in INITIALIZING, with a
registered handle. -/
def stInit1 : OrchState :=
  { emptyState with
    db := [mkSessionRec "s1" "u1" SessionStatus.INITIALIZING],
    registry := ["s1"] }

/-- A one-session store holding session s1 of user u1 in READY, with a
registered handle. -/
def stReady1 : OrchState :=
  { emptyState with
    db := [{ mkSessionRec "s1" "u1" SessionStatus.READY with
             phoneNumber := some "15550001" }],
    registry := ["s1"] }

/-- A stored message row whose ack level is 3 (read). -/
def rowRead : MessageRow :=
  { mkMessageRow "s1" "c1" (wm "m1" 5) with ackStatus := 3 }

/-- A one-session store holding session s1 in READY with no registered handle. -/
def stNoHandle : OrchState :=
  { emptyState with db := [mkSessionRec "s1" "u1" SessionStatus.READY] }

/-- A two-session store used as concrete input for the restoration claims. -/
def stTwo : OrchState :=
  { emptyState with
    db := [mkSessionRec "s1" "u1" SessionStatus.READY,
           mkSessionRec "s2" "u1" SessionStatus.SYNCING] }

/-- Three concrete conversations for a concrete sync pass. -/
def chats3 : List SyncChat :=
  [ { chatId := "c1", name := "alpha", isGroup := false, unreadCount := 0,
      messages := [wm "m1" 5] },
    { chatId := "c2", name := "beta", isGroup := false, unreadCount := 1,
      messages := [] },
    { chatId := "c3", name := "gamma", isGroup := true, unreadCount := 2,
      messages := [wm "m2" 6, wm "m3" 7] } ]

/-! General lemmas about the store primitives. -/

/-- Looking up the updated sessionId after a findOneAndUpdate that preserves
sessionIds returns the updated record. -/
theorem findSession_dbUpdate_self (db : List SessionRec) (sid : String)
    (f : SessionRec → SessionRec) (hf : ∀ r, (f r).sessionId = r.sessionId) :
    findSession (dbUpdate db sid f) sid = (findSession db sid).map f := by
  induction db with
  | nil => rfl
  | cons r t ih =>
    simp only [dbUpdate, List.map_cons, findSession] at ih ⊢
    by_cases h : (r.sessionId == sid) = true
    · have hb2 : ((f r).sessionId == sid) = true := by
        rw [show (f r).sessionId = r.sessionId from hf r]
        exact h
      rw [if_pos h, List.find?_cons_of_pos (p := fun r : SessionRec => r.sessionId == sid) _ hb2, List.find?_cons_of_pos (p := fun r : SessionRec => r.sessionId == sid) _ h]
      rfl
    · rw [if_neg h, List.find?_cons_of_neg (p := fun r : SessionRec => r.sessionId == sid) _ h, List.find?_cons_of_neg (p := fun r : SessionRec => r.sessionId == sid) _ h]
      exact ih

/-- Looking up a different sessionId after a findOneAndUpdate that preserves
sessionIds is unaffected. -/
theorem findSession_dbUpdate_other (db : List SessionRec) (s sid : String) (hne : s ≠ sid)
    (f : SessionRec → SessionRec) (hf : ∀ r, (f r).sessionId = r.sessionId) :
    findSession (dbUpdate db s f) sid = findSession db sid := by
  induction db with
  | nil => rfl
  | cons r t ih =>
    simp only [dbUpdate, List.map_cons, findSession] at ih ⊢
    by_cases h : (r.sessionId == s) = true
    · have hgone : ¬ ((r.sessionId == sid) = true) := by
        intro hc
        exact hne (beq_iff_eq.mp h ▸ (beq_iff_eq.mp hc ▸ rfl))
      have hgone2 : ¬ (((f r).sessionId == sid) = true) := by
        rw [show (f r).sessionId = r.sessionId from hf r]
        exact hgone
      rw [if_pos h, List.find?_cons_of_neg (p := fun r : SessionRec => r.sessionId == sid) _ hgone2, List.find?_cons_of_neg (p := fun r : SessionRec => r.sessionId == sid) _ hgone]
      exact ih
    · by_cases h2 : (r.sessionId == sid) = true
      · rw [if_neg h, List.find?_cons_of_pos (p := fun r : SessionRec => r.sessionId == sid) _ h2, List.find?_cons_of_pos (p := fun r : SessionRec => r.sessionId == sid) _ h2]
      · rw [if_neg h, List.find?_cons_of_neg (p := fun r : SessionRec => r.sessionId == sid) _ h2, List.find?_cons_of_neg (p := fun r : SessionRec => r.sessionId == sid) _ h2]
        exact ih

/-- A sessionId-preserving findOneAndUpdate that writes a constant status leaves
the looked-up status equal to that constant whenever the record exists. -/
theorem statusOf_dbUpdate_const (db : List SessionRec) (sid : String)
    (f : SessionRec → SessionRec) (hf : ∀ r, (f r).sessionId = r.sessionId)
    (c : SessionStatus) (hc : ∀ r, (f r).status = c) :
    statusOf (dbUpdate db sid f) sid = (statusOf db sid).map (fun _ => c) := by
  unfold statusOf
  rw [findSession_dbUpdate_self db sid f hf]
  cases findSession db sid <;> simp [hc]

/-- A sessionId-preserving findOneAndUpdate that does not write phoneNumber
leaves the looked-up phone number unchanged. -/
theorem phoneOf_dbUpdate_preserve (db : List SessionRec) (sid : String)
    (f : SessionRec → SessionRec) (hf : ∀ r, (f r).sessionId = r.sessionId)
    (hp : ∀ r, (f r).phoneNumber = r.phoneNumber) :
    phoneOf (dbUpdate db sid f) sid = phoneOf db sid := by
  unfold phoneOf
  rw [findSession_dbUpdate_self db sid f hf]
  cases findSession db sid <;> simp [hp]

/-- A sessionId-preserving findOneAndUpdate that clears qrCode leaves the
looked-up QR payload absent. -/
theorem qrOf_dbUpdate_none (db : List SessionRec) (sid : String)
    (f : SessionRec → SessionRec) (hf : ∀ r, (f r).sessionId = r.sessionId)
    (hq : ∀ r, (f r).qrCode = none) :
    qrOf (dbUpdate db sid f) sid = none := by
  unfold qrOf
  rw [findSession_dbUpdate_self db sid f hf]
  cases findSession db sid <;> simp [hq]

/-- A sessionId-preserving findOneAndUpdate that does not write qrCode leaves
the looked-up QR payload unchanged. -/
theorem qrOf_dbUpdate_preserve (db : List SessionRec) (sid : String)
    (f : SessionRec → SessionRec) (hf : ∀ r, (f r).sessionId = r.sessionId)
    (hq : ∀ r, (f r).qrCode = r.qrCode) :
    qrOf (dbUpdate db sid f) sid = qrOf db sid := by
  unfold qrOf
  rw [findSession_dbUpdate_self db sid f hf]
  cases findSession db sid <;> simp [hq]

/-- Message.findOneAndUpdate coincides with a map over all rows whenever the
filter matches at most one row (the unique-index situation). -/
theorem findOneAndUpdateMsg_of_unique (l : List MessageRow) (p : MessageRow → Bool)
    (f : MessageRow → MessageRow) (h : (l.filter p).length ≤ 1) :
    findOneAndUpdateMsg l p f = l.map (fun r => if p r then f r else r) := by
  induction l with
  | nil => rfl
  | cons r t ih =>
    by_cases hp : p r = true
    · have ht : t.filter p = [] := by
        have hlen : (t.filter p).length = 0 := by
          have := h
          simp only [List.filter_cons, hp, if_pos, List.length_cons] at this
          omega
        exact List.length_eq_zero.mp hlen
      have hnone : ∀ x ∈ t, ¬ (p x = true) := by
        intro x hx hc
        have : x ∈ t.filter p := List.mem_filter.mpr ⟨hx, hc⟩
        rw [ht] at this
        exact absurd this (List.not_mem_nil x)
      have hmap : t.map (fun r => if p r then f r else r) = t := by
        conv_rhs => rw [show t = t.map id from (List.map_id t).symm]
        apply List.map_congr_left
        intro x hx
        simp [hnone x hx]
      simp [findOneAndUpdateMsg, hp, hmap]
    · have h2 : (t.filter p).length ≤ 1 := by
        simpa [List.filter_cons, hp] using h
      simp [findOneAndUpdateMsg, hp, ih h2]

/-! Theorems settling the claims. -/

/-- Claim C3: when a user already has at least maxSessionsPerUser sessions in
READY or SYNCING, createSession rejects with the capacity error and mutates
neither the session store nor the client handle registry. -/
theorem c3_create_rejects_at_capacity (st : OrchState) (uid newSid : String)
    (maxPerUser : Nat) (h : maxPerUser ≤ getActiveSessionsCount st.db uid) :
    (createSession st uid newSid maxPerUser).1 = Except.error "Maximum sessions allowed" ∧
    (createSession st uid newSid maxPerUser).2 = st := by
  unfold createSession
  rw [if_pos h]
  exact ⟨rfl, rfl⟩

/-- Witness for C3 at a concrete store with one READY session and limit 1. -/
theorem c3_create_rejects_at_capacity_witness :
    1 ≤ getActiveSessionsCount stReady1.db "u1" ∧
    ((createSession stReady1 "u1" "s2" 1).1 = Except.error "Maximum sessions allowed" ∧
     (createSession stReady1 "u1" "s2" 1).2 = stReady1) :=
  ⟨by decide, c3_create_rejects_at_capacity stReady1 "u1" "s2" 1 (by decide)⟩

/-- Claim C10: when no client handle is registered for the sessionId,
destroySession still succeeds and still persists DISCONNECTED for it; the
registry check only guards the handle teardown, not the status write. -/
theorem c10_destroy_without_handle (st : OrchState) (sid : String) (destroyFails : Bool)
    (h : st.registry.contains sid = false) :
    destroySession st sid destroyFails =
      Except.ok { st with
        db := dbUpdate st.db sid (fun r => { r with status := SessionStatus.DISCONNECTED }) } ∧
    statusOf (dbUpdate st.db sid (fun r => { r with status := SessionStatus.DISCONNECTED })) sid
      = (statusOf st.db sid).map (fun _ => SessionStatus.DISCONNECTED) := by
  constructor
  · have hm : sid ∉ st.registry := by simpa using h
    simp [destroySession, hm]
  · exact statusOf_dbUpdate_const st.db sid
      (fun r => { r with status := SessionStatus.DISCONNECTED })
      (fun _ => rfl) SessionStatus.DISCONNECTED (fun _ => rfl)

/-- Witness for C10 at a concrete store holding a READY session with no handle. -/
theorem c10_destroy_without_handle_witness :
    stNoHandle.registry.contains "s1" = false ∧
    (destroySession stNoHandle "s1" true =
      Except.ok { stNoHandle with
        db := dbUpdate stNoHandle.db "s1"
          (fun r => { r with status := SessionStatus.DISCONNECTED }) } ∧
     statusOf (dbUpdate stNoHandle.db "s1"
         (fun r => { r with status := SessionStatus.DISCONNECTED })) "s1"
       = (statusOf stNoHandle.db "s1").map (fun _ => SessionStatus.DISCONNECTED)) :=
  ⟨by decide, c10_destroy_without_handle stNoHandle "s1" true (by decide)⟩

/-- Claim C7 counterexample: with a registered handle whose teardown throws,
destroySession propagates the error to the caller instead of logging it, so the
handle is not removed from the registry and DISCONNECTED is not persisted. -/
theorem c7_destroy_error_counterexample :
    destroySession stReady1 "s1" true = Except.error "destroy failed" := by
  rfl

/-- Claim C7 amended: destroySession propagates a teardown error to the caller
(performing no registry removal and no status write in that case); only when
teardown succeeds, or when no handle is registered, does it remove any handle
and persist DISCONNECTED. -/
theorem c7_destroy_propagates_amended (st : OrchState) (sid : String) (destroyFails : Bool) :
    destroySession st sid destroyFails =
      (if st.registry.contains sid && destroyFails then
        Except.error "destroy failed"
      else
        Except.ok { st with
          registry := st.registry.filter (fun s => s ≠ sid),
          db := dbUpdate st.db sid
            (fun r => { r with status := SessionStatus.DISCONNECTED }) }) := by
  unfold destroySession
  by_cases hm : sid ∈ st.registry
  · by_cases h2 : destroyFails = true
    · simp [hm, h2]
    · simp [hm, h2]
  · have hfilter : st.registry.filter (fun s => s ≠ sid) = st.registry := by
      apply List.filter_eq_self.mpr
      intro a ha
      simp only [decide_eq_true_eq]
      intro hEq
      exact hm (hEq ▸ ha)
    simp [hm]
    simpa using hfilter.symm

/-- Claim C2 counterexample: a duplicate ready event invokes startBackgroundSync
a second time — the orchestrator records no in-flight sync task — so the launch
count after two ready events for the same handle is 2, not at most 1. -/
theorem c2_double_ready_counterexample :
    ((readyHandler (readyHandler stInit1 "s1" "u1" "15550001")
        "s1" "u1" "15550001").syncLaunches).length = 2 := by
  rfl

/-- Claim C2 amended: the ready handler launches the Synchronization Task on
every ready event — one launch per ready received, with no in-flight tracking —
so k duplicate ready events produce k launches. -/
theorem c2_launch_per_ready_amended (sid uid : String) (st : OrchState)
    (phones : List String) :
    (applyEvents sid uid st (phones.map CEvent.ready)).syncLaunches =
      st.syncLaunches ++ phones.map (fun _ => sid) := by
  induction phones generalizing st with
  | nil => simp [applyEvents]
  | cons p rest ih =>
    simp only [List.map_cons, applyEvents, List.foldl_cons]
    have := ih (applyEvent sid uid st (CEvent.ready p))
    simp only [applyEvents] at this
    rw [this]
    simp [applyEvent, readyHandler]

/-- Claim C6 counterexample: the auth_failure handler persists FAILED but makes
no SocketManager emission, so a subscribed client cannot observe this
transition through the fan-out. -/
theorem c6_auth_failure_counterexample :
    statusOf (authFailureHandler stReady1 "s1").db "s1" = some SessionStatus.FAILED ∧
    (authFailureHandler stReady1 "s1").events = [] := by
  exact ⟨rfl, rfl⟩

/-- Claim C6 amended: the ready handler emits the READY transition directly, and
the disconnected handler emits DISCONNECTED exactly when an onDisconnected
callback was registered — WhatsAppController.createSession registers one that
emits session_status DISCONNECTED, while the startup restoration path registers
none — but the transitions to FAILED performed by the auth_failure handler and
by the client-initialization failure catch are persisted without any fan-out
emission. -/
theorem c6_status_emission_amended (st : OrchState) (sid uid phone : String) :
    (authFailureHandler st sid).events = st.events ∧
    (initFailureHandler st sid).events = st.events ∧
    statusOf (authFailureHandler st sid).db sid
      = (statusOf st.db sid).map (fun _ => SessionStatus.FAILED) ∧
    statusOf (initFailureHandler st sid).db sid
      = (statusOf st.db sid).map (fun _ => SessionStatus.FAILED) ∧
    (disconnectedHandler st sid (some (controllerOnDisconnected sid uid))).events
      = st.events ++ [FanoutEvent.session_status sid uid SessionStatus.DISCONNECTED] ∧
    (disconnectedHandler st sid none).events = st.events ∧
    statusOf (disconnectedHandler st sid (some (controllerOnDisconnected sid uid))).db sid
      = (statusOf st.db sid).map (fun _ => SessionStatus.DISCONNECTED) ∧
    statusOf (disconnectedHandler st sid none).db sid
      = (statusOf st.db sid).map (fun _ => SessionStatus.DISCONNECTED) ∧
    (readyHandler st sid uid phone).events =
      st.events ++ [FanoutEvent.session_status sid uid SessionStatus.READY] := by
  refine ⟨rfl, rfl, ?_, ?_, rfl, rfl, ?_, ?_, rfl⟩
  · exact statusOf_dbUpdate_const st.db sid
      (fun r => { r with status := SessionStatus.FAILED })
      (fun _ => rfl) SessionStatus.FAILED (fun _ => rfl)
  · exact statusOf_dbUpdate_const st.db sid
      (fun r => { r with status := SessionStatus.FAILED })
      (fun _ => rfl) SessionStatus.FAILED (fun _ => rfl)
  · exact statusOf_dbUpdate_const st.db sid
      (fun r => { r with status := SessionStatus.DISCONNECTED })
      (fun _ => rfl) SessionStatus.DISCONNECTED (fun _ => rfl)
  · exact statusOf_dbUpdate_const st.db sid
      (fun r => { r with status := SessionStatus.DISCONNECTED })
      (fun _ => rfl) SessionStatus.DISCONNECTED (fun _ => rfl)

/-- Claim C8 counterexample: a message_ack event carrying ack level 1 (sent)
lowers a stored ackStatus of 3 (read) to 1; the handler enforces no monotonic
ordering. -/
theorem c8_ack_lowered_counterexample :
    rowRead.ackStatus = 3 ∧
    ((messageAckHandler { emptyState with messages := [rowRead] } "s1" "m1" 1).messages.map
      MessageRow.ackStatus) = [1] := by
  exact ⟨rfl, rfl⟩

/-- Claim C8 amended: under the unique (messageId, sessionId) index, every
message_ack handler invocation overwrites the matching row's ackStatus with
exactly the ack value carried by the event — whether higher or lower than the
stored value — and leaves every other row unchanged. -/
theorem c8_ack_overwrite_amended (st : OrchState) (sid mid : String) (ack : Nat)
    (huniq : messageRowCount st.messages sid mid ≤ 1) :
    (messageAckHandler st sid mid ack).messages =
      st.messages.map (fun r =>
        if r.sessionId == sid && r.messageId == mid then
          { r with ackStatus := ack }
        else r) := by
  unfold messageAckHandler
  exact findOneAndUpdateMsg_of_unique _ _ _ huniq

/-- Witness for C8 amended at a one-row store whose stored ack level is 3 and
an event ack of 1. -/
theorem c8_ack_overwrite_amended_witness :
    messageRowCount [rowRead] "s1" "m1" ≤ 1 ∧
    (messageAckHandler { emptyState with messages := [rowRead] } "s1" "m1" 1).messages =
      [rowRead].map (fun r =>
        if r.sessionId == "s1" && r.messageId == "m1" then
          { r with ackStatus := 1 }
        else r) :=
  ⟨by decide,
   c8_ack_overwrite_amended { emptyState with messages := [rowRead] } "s1" "m1" 1 (by decide)⟩


/-! Lemmas and theorems for the message ingestion path (C1). -/

/-- The duplicate check of both ingestion paths is positive exactly when the
store already holds a row for the key. -/
theorem hasMessageRow_iff_count_pos (msgs : List MessageRow) (sid mid : String) :
    hasMessageRow msgs sid mid = true ↔ 0 < messageRowCount msgs sid mid := by
  unfold hasMessageRow messageRowCount
  constructor
  · intro h
    obtain ⟨x, hx, hpx⟩ := List.any_eq_true.mp h
    have hmem : x ∈ msgs.filter (fun r => r.sessionId == sid && r.messageId == mid) :=
      List.mem_filter.mpr ⟨hx, hpx⟩
    exact List.length_pos.mpr (List.ne_nil_of_mem hmem)
  · intro h
    have hne : msgs.filter (fun r => r.sessionId == sid && r.messageId == mid) ≠ [] := by
      intro hnil
      rw [hnil] at h
      exact absurd h (by simp)
    obtain ⟨x, hx⟩ := List.exists_mem_of_ne_nil _ hne
    have hm := List.mem_filter.mp hx
    exact List.any_eq_true.mpr ⟨x, hm.1, hm.2⟩

/-- The sessionId written by either ingestion invocation. -/
theorem opRow_sessionId (sid : String) (op : IngestOp) : (opRow sid op).sessionId = sid := by
  cases op <;> rfl

/-- The messageId written by either ingestion invocation. -/
theorem opRow_messageId (sid : String) (op : IngestOp) :
    (opRow sid op).messageId = opMessageId op := by
  cases op <;> rfl

/-- An ingestion invocation whose key is already stored changes nothing: the
insertOne raises the duplicate-key error, the catch absorbs it, and neither
path emits or writes anything else afterwards. -/
theorem applyIngest_absorbed (sid uid : String) (st : OrchState) (op : IngestOp)
    (h : hasMessageRow st.messages sid (opMessageId op) = true) :
    applyIngest sid uid st op = st := by
  cases op with
  | live m =>
    show liveMessageHandler st sid uid m = st
    simp only [opMessageId] at h
    unfold liveMessageHandler
    rw [if_pos h]
  | sync cid m =>
    show syncIngestMessage st sid cid m = st
    simp only [opMessageId] at h
    unfold syncIngestMessage
    rw [if_pos h]

/-- A whole sequence of ingestion invocations for an already-stored key is a
no-op. -/
theorem applyIngests_absorbed (sid uid mid : String) (ops : List IngestOp) :
    ∀ st : OrchState, (∀ op ∈ ops, opMessageId op = mid) →
      hasMessageRow st.messages sid mid = true →
      applyIngests sid uid st ops = st := by
  induction ops with
  | nil =>
    intro st _ _
    rfl
  | cons op rest ih =>
    intro st hall hhas
    have h0 : opMessageId op = mid := hall op (List.mem_cons_self op rest)
    have hst : applyIngest sid uid st op = st :=
      applyIngest_absorbed sid uid st op (by rw [h0]; exact hhas)
    show List.foldl (applyIngest sid uid) (applyIngest sid uid st op) rest = st
    rw [hst]
    exact ih st (fun o ho => hall o (List.mem_cons_of_mem _ ho)) hhas

/-- An ingestion invocation on a fresh key appends exactly one row, and appends
one message_received emission exactly when it is the live path. -/
theorem applyIngest_fresh (sid uid : String) (st : OrchState) (op : IngestOp)
    (h : hasMessageRow st.messages sid (opMessageId op) = false) :
    (applyIngest sid uid st op).messages = st.messages ++ [opRow sid op] ∧
    (applyIngest sid uid st op).events = st.events ++
      (if opIsLive op then [FanoutEvent.message_received sid uid (opMessageId op)] else []) := by
  cases op with
  | live m =>
    show (liveMessageHandler st sid uid m).messages = _ ∧
      (liveMessageHandler st sid uid m).events = _
    unfold liveMessageHandler
    rw [if_neg (by simp [opMessageId] at h; simp [h])]
    exact ⟨rfl, rfl⟩
  | sync cid m =>
    show (syncIngestMessage st sid cid m).messages = _ ∧
      (syncIngestMessage st sid cid m).events = _
    unfold syncIngestMessage
    rw [if_neg (by simp [opMessageId] at h; simp [h])]
    exact ⟨rfl, by simp [opIsLive]⟩

/-- Claim C1 counterexample: when the sync task observes the message first, the
live event that follows is absorbed — one row is stored, yet zero
message_received events are published for the key, not exactly one. -/
theorem c1_publish_counterexample :
    messageRowCount (applyIngests "s1" "u1" emptyState
      [IngestOp.sync "c1" (wm "m1" 5), IngestOp.live (wm "m1" 5)]).messages "s1" "m1" = 1 ∧
    messageReceivedCount (applyIngests "s1" "u1" emptyState
      [IngestOp.sync "c1" (wm "m1" 5), IngestOp.live (wm "m1" 5)]).events "s1" "m1" = 0 := by
  exact ⟨rfl, rfl⟩

/-- Claim C1 amended: for every (sessionId, messageId) key, any non-empty
sequence of ingestion invocations (live event and/or sync task, in any order)
leaves exactly one stored row for the key — the row written by the first
invocation, never overwritten — and publishes message_received at most once:
exactly once when the first invocation is the live event, and never when the
first successful insert happens through the sync task, which does not publish. -/
theorem c1_ingest_idempotent_amended (sid uid mid : String) (st : OrchState)
    (op0 : IngestOp) (ops : List IngestOp)
    (hmid0 : opMessageId op0 = mid)
    (hmid : ∀ op ∈ ops, opMessageId op = mid)
    (hrow : messageRowCount st.messages sid mid = 0)
    (hev : messageReceivedCount st.events sid mid = 0) :
    messageRowCount (applyIngests sid uid st (op0 :: ops)).messages sid mid = 1 ∧
    (applyIngests sid uid st (op0 :: ops)).messages.filter
      (fun r => r.sessionId == sid && r.messageId == mid) = [opRow sid op0] ∧
    messageReceivedCount (applyIngests sid uid st (op0 :: ops)).events sid mid =
      (if opIsLive op0 then 1 else 0) := by
  have hfresh : hasMessageRow st.messages sid (opMessageId op0) = false := by
    rw [hmid0]
    cases hc : hasMessageRow st.messages sid mid
    · rfl
    · have := (hasMessageRow_iff_count_pos st.messages sid mid).mp hc
      omega
  obtain ⟨hmsgs, hevs⟩ := applyIngest_fresh sid uid st op0 hfresh
  have hpr : ((opRow sid op0).sessionId == sid && (opRow sid op0).messageId == mid) = true := by
    rw [opRow_sessionId, opRow_messageId, hmid0]
    simp
  have hfilter0 : st.messages.filter (fun r => r.sessionId == sid && r.messageId == mid) = [] :=
    List.length_eq_zero.mp hrow
  have hfilter1 : (applyIngest sid uid st op0).messages.filter
      (fun r => r.sessionId == sid && r.messageId == mid) = [opRow sid op0] := by
    rw [hmsgs, List.filter_append, hfilter0, List.nil_append]
    simp [hpr]
  have hcount1 : messageRowCount (applyIngest sid uid st op0).messages sid mid = 1 := by
    unfold messageRowCount
    rw [hfilter1]
    rfl
  have hhas1 : hasMessageRow (applyIngest sid uid st op0).messages sid mid = true :=
    (hasMessageRow_iff_count_pos _ sid mid).mpr (by omega)
  have hfold : applyIngests sid uid (applyIngest sid uid st op0) ops = applyIngest sid uid st op0 :=
    applyIngests_absorbed sid uid mid ops (applyIngest sid uid st op0) hmid hhas1
  have hfinal : applyIngests sid uid st (op0 :: ops) = applyIngest sid uid st op0 := by
    show List.foldl (applyIngest sid uid) (applyIngest sid uid st op0) ops = _
    exact hfold
  refine ⟨by rw [hfinal]; exact hcount1, by rw [hfinal]; exact hfilter1, ?_⟩
  rw [hfinal]
  unfold messageReceivedCount at hev ⊢
  rw [hevs, List.filter_append, List.length_append, hev, Nat.zero_add]
  cases op0 with
  | live m =>
    simp only [opMessageId] at hmid0
    simp [opIsLive, opMessageId, hmid0]
  | sync cid m =>
    simp [opIsLive]

/-- Witness for C1 amended: live event first, then a duplicate sync insert, on
the empty store. -/
theorem c1_ingest_idempotent_amended_witness :
    (opMessageId (IngestOp.live (wm "m1" 5)) = "m1" ∧
     (∀ op ∈ [IngestOp.sync "c1" (wm "m1" 5)], opMessageId op = "m1") ∧
     messageRowCount emptyState.messages "s1" "m1" = 0 ∧
     messageReceivedCount emptyState.events "s1" "m1" = 0) ∧
    (messageRowCount (applyIngests "s1" "u1" emptyState
       [IngestOp.live (wm "m1" 5), IngestOp.sync "c1" (wm "m1" 5)]).messages "s1" "m1" = 1 ∧
     (applyIngests "s1" "u1" emptyState
       [IngestOp.live (wm "m1" 5), IngestOp.sync "c1" (wm "m1" 5)]).messages.filter
       (fun r => r.sessionId == "s1" && r.messageId == "m1")
         = [opRow "s1" (IngestOp.live (wm "m1" 5))] ∧
     messageReceivedCount (applyIngests "s1" "u1" emptyState
       [IngestOp.live (wm "m1" 5), IngestOp.sync "c1" (wm "m1" 5)]).events "s1" "m1" =
       (if opIsLive (IngestOp.live (wm "m1" 5)) then 1 else 0)) :=
  ⟨⟨by decide, by decide, by decide, by decide⟩,
   c1_ingest_idempotent_amended "s1" "u1" "m1" emptyState
     (IngestOp.live (wm "m1" 5)) [IngestOp.sync "c1" (wm "m1" 5)]
     (by decide) (by decide) (by decide) (by decide)⟩


/-! Lemmas and theorems for startup restoration (C5). -/

/-- Session.findOneAndUpdate preserves the list of stored sessionIds. -/
theorem dbUpdate_map_sessionId (db : List SessionRec) (s : String)
    (f : SessionRec → SessionRec) (hf : ∀ r, (f r).sessionId = r.sessionId) :
    (dbUpdate db s f).map SessionRec.sessionId = db.map SessionRec.sessionId := by
  unfold dbUpdate
  rw [List.map_map]
  apply List.map_congr_left
  intro r _
  by_cases h : (r.sessionId == s) = true
  · simp [Function.comp, h, hf]
  · simp [Function.comp, h]

/-- A session record is stored exactly when its sessionId occurs in the store. -/
theorem findSession_isSome_iff (db : List SessionRec) (sid : String) :
    (findSession db sid).isSome = true ↔ sid ∈ db.map SessionRec.sessionId := by
  unfold findSession
  rw [List.find?_isSome]
  constructor
  · rintro ⟨x, hx, hpx⟩
    exact List.mem_map.mpr ⟨x, hx, beq_iff_eq.mp hpx⟩
  · intro h
    obtain ⟨x, hx, hEq⟩ := List.mem_map.mp h
    exact ⟨x, hx, beq_iff_eq.mpr hEq⟩

/-- restoreSession preserves the list of stored sessionIds. -/
theorem restoreSession_map_sessionId (st : OrchState) (sid : String) (fails : String → Bool) :
    (restoreSession st sid fails).db.map SessionRec.sessionId
      = st.db.map SessionRec.sessionId := by
  unfold restoreSession
  by_cases h : fails sid = true
  · rw [if_pos h]
    rw [dbUpdate_map_sessionId _ sid
          (fun r => { r with status := SessionStatus.FAILED }) (fun _ => rfl),
        dbUpdate_map_sessionId _ sid
          (fun r => { r with status := SessionStatus.INITIALIZING }) (fun _ => rfl)]
  · rw [if_neg h]
    rw [dbUpdate_map_sessionId _ sid
          (fun r => { r with status := SessionStatus.INITIALIZING }) (fun _ => rfl)]

/-- restoreSession for one sessionId leaves every other session status alone. -/
theorem restoreSession_statusOf_other (st : OrchState) (s sid : String) (hne : s ≠ sid)
    (fails : String → Bool) :
    statusOf (restoreSession st s fails).db sid = statusOf st.db sid := by
  unfold restoreSession statusOf
  by_cases h : fails s = true
  · rw [if_pos h]
    rw [findSession_dbUpdate_other _ s sid hne
          (fun r => { r with status := SessionStatus.FAILED }) (fun _ => rfl),
        findSession_dbUpdate_other _ s sid hne
          (fun r => { r with status := SessionStatus.INITIALIZING }) (fun _ => rfl)]
  · rw [if_neg h]
    rw [findSession_dbUpdate_other _ s sid hne
          (fun r => { r with status := SessionStatus.INITIALIZING }) (fun _ => rfl)]

/-- restoreSession drives a stored session to FAILED when the client re-open
throws and to INITIALIZING when it succeeds. -/
theorem restoreSession_statusOf_self (st : OrchState) (sid : String) (fails : String → Bool)
    (hmem : (findSession st.db sid).isSome = true) :
    statusOf (restoreSession st sid fails).db sid =
      some (if fails sid then SessionStatus.FAILED else SessionStatus.INITIALIZING) := by
  obtain ⟨r, hr⟩ := Option.isSome_iff_exists.mp hmem
  unfold restoreSession statusOf
  by_cases h : fails sid = true
  · rw [if_pos h]
    rw [findSession_dbUpdate_self _ sid
          (fun r => { r with status := SessionStatus.FAILED }) (fun _ => rfl),
        findSession_dbUpdate_self _ sid
          (fun r => { r with status := SessionStatus.INITIALIZING }) (fun _ => rfl), hr]
    simp [h]
  · rw [if_neg h]
    rw [findSession_dbUpdate_self _ sid
          (fun r => { r with status := SessionStatus.INITIALIZING }) (fun _ => rfl), hr]
    simp [h]

/-- The restoration loop leaves the status of a sessionId it never touches alone. -/
theorem restoreFold_statusOf_other (fails : String → Bool) (sid : String)
    (l : List SessionRec) :
    ∀ st : OrchState, (∀ x ∈ l, x.sessionId ≠ sid) →
      statusOf ((l.foldl (fun acc r => restoreSession acc r.sessionId fails) st)).db sid
        = statusOf st.db sid := by
  induction l with
  | nil =>
    intro st _
    rfl
  | cons a t ih =>
    intro st hall
    rw [List.foldl_cons]
    rw [ih (restoreSession st a.sessionId fails)
          (fun x hx => hall x (List.mem_cons_of_mem _ hx))]
    exact restoreSession_statusOf_other st a.sessionId sid
      (hall a (List.mem_cons_self a t)) fails

/-- The restoration loop preserves the list of stored sessionIds. -/
theorem restoreFold_map_sessionId (fails : String → Bool) (l : List SessionRec) :
    ∀ st : OrchState,
      ((l.foldl (fun acc r => restoreSession acc r.sessionId fails) st)).db.map
        SessionRec.sessionId = st.db.map SessionRec.sessionId := by
  induction l with
  | nil =>
    intro st
    rfl
  | cons a t ih =>
    intro st
    rw [List.foldl_cons, ih (restoreSession st a.sessionId fails),
        restoreSession_map_sessionId]

/-- Claim C5: startup restoration attempts every persisted session whose status
is READY, SYNCING or DISCONNECTED, marks a session FAILED exactly when its own
re-open fails and INITIALIZING otherwise, independently of which other sessions
fail — one failure never aborts or skips the others. -/
theorem c5_restoration_failure_independent (st : OrchState) (fails : String → Bool)
    (r : SessionRec) (hmem : r ∈ st.db) (hres : restorableStatus r.status = true)
    (hnd : (st.db.map SessionRec.sessionId).Nodup) :
    statusOf (restoreSessions st fails).db r.sessionId =
      some (if fails r.sessionId then SessionStatus.FAILED
            else SessionStatus.INITIALIZING) := by
  unfold restoreSessions
  have hrl : r ∈ st.db.filter (fun x => restorableStatus x.status) :=
    List.mem_filter.mpr ⟨hmem, hres⟩
  obtain ⟨l1, l2, hsplit⟩ := List.append_of_mem hrl
  have hndl : ((st.db.filter (fun x => restorableStatus x.status)).map
      SessionRec.sessionId).Nodup :=
    ((List.filter_sublist st.db).map SessionRec.sessionId).nodup hnd
  rw [hsplit] at hndl
  rw [List.map_append, List.map_cons] at hndl
  have hnotin : r.sessionId ∉ l2.map SessionRec.sessionId :=
    (List.nodup_cons.mp (List.Nodup.of_append_right hndl)).1
  have hl2 : ∀ x ∈ l2, x.sessionId ≠ r.sessionId := by
    intro x hx hEq
    exact hnotin (List.mem_map.mpr ⟨x, hx, hEq⟩)
  rw [hsplit, List.foldl_append, List.foldl_cons]
  rw [restoreFold_statusOf_other fails r.sessionId l2 _ hl2]
  apply restoreSession_statusOf_self
  rw [findSession_isSome_iff, restoreFold_map_sessionId]
  exact List.mem_map.mpr ⟨r, hmem, rfl⟩

/-- Witness for C5: two stored sessions, the first of which fails to re-open;
it ends FAILED while restoration still ran for it. -/
theorem c5_restoration_failure_independent_witness :
    (mkSessionRec "s1" "u1" SessionStatus.READY ∈ stTwo.db ∧
     restorableStatus (mkSessionRec "s1" "u1" SessionStatus.READY).status = true ∧
     (stTwo.db.map SessionRec.sessionId).Nodup) ∧
    statusOf (restoreSessions stTwo (fun s => s == "s1")).db "s1" =
      some (if (("s1" : String) == "s1") then SessionStatus.FAILED
            else SessionStatus.INITIALIZING) :=
  ⟨⟨by decide, by decide, by decide⟩,
   c5_restoration_failure_independent stTwo (fun s => s == "s1")
     (mkSessionRec "s1" "u1" SessionStatus.READY) (by decide) (by decide) (by decide)⟩


/-! Lemmas and theorems for the qrPayload / phoneNumber invariant (C9). -/

/-- A lifecycle event that is not a qr event leaves an absent QR payload absent:
the ready handler clears it, and the failure and disconnect handlers do not
touch it. -/
theorem applyEvent_qr_none (sid uid : String) (st : OrchState) (e : CEvent)
    (hq : qrOf st.db sid = none) (he : isQrEvent e = false) :
    qrOf (applyEvent sid uid st e).db sid = none := by
  cases e with
  | qr q =>
    exact absurd he (by simp [isQrEvent])
  | ready p =>
    exact qrOf_dbUpdate_none st.db sid
      (fun r => { r with status := SessionStatus.READY, phoneNumber := some p, qrCode := none })
      (fun _ => rfl) (fun _ => rfl)
  | authFailure =>
    show qrOf (dbUpdate st.db sid (fun r => { r with status := SessionStatus.FAILED })) sid
      = none
    rw [qrOf_dbUpdate_preserve st.db sid
      (fun r => { r with status := SessionStatus.FAILED }) (fun _ => rfl) (fun _ => rfl)]
    exact hq
  | disconnected =>
    show qrOf (dbUpdate st.db sid
      (fun r => { r with status := SessionStatus.DISCONNECTED })) sid = none
    rw [qrOf_dbUpdate_preserve st.db sid
      (fun r => { r with status := SessionStatus.DISCONNECTED }) (fun _ => rfl) (fun _ => rfl)]
    exact hq

/-- A run of qr-free lifecycle events keeps an absent QR payload absent. -/
theorem applyEvents_qr_none (sid uid : String) (evs : List CEvent) :
    ∀ st : OrchState, qrOf st.db sid = none →
      evs.all (fun e => !(isQrEvent e)) = true →
      qrOf (applyEvents sid uid st evs).db sid = none := by
  induction evs with
  | nil =>
    intro st hq _
    exact hq
  | cons e rest ih =>
    intro st hq hall
    rw [List.all_cons, Bool.and_eq_true] at hall
    have he : isQrEvent e = false := by
      cases hc : isQrEvent e
      · rfl
      · rw [hc] at hall
        exact absurd hall.1 (by simp)
    show qrOf (applyEvents sid uid (applyEvent sid uid st e) rest).db sid = none
    exact ih (applyEvent sid uid st e) (applyEvent_qr_none sid uid st e hq he) hall.2

/-- Claim C9 counterexample: the qr handler does not clear phoneNumber, so a qr
event arriving after a ready event leaves both the QR payload and the phone
number set at once. -/
theorem c9_both_set_counterexample :
    phoneOf (applyEvents "s1" "u1" stInit1
      [CEvent.ready "15550001", CEvent.qr "QR2"]).db "s1" = some "15550001" ∧
    qrOf (applyEvents "s1" "u1" stInit1
      [CEvent.ready "15550001", CEvent.qr "QR2"]).db "s1" = some "QR2" := by
  exact ⟨rfl, rfl⟩

/-- Claim C9 amended: starting from a session with no phone number recorded,
qrPayload and phoneNumber are never both set after any sequence of lifecycle
events in which no qr event follows a ready event; the ready handler clears the
payload when recording the phone number, but the qr handler stores the payload
without clearing the phone number, so the restriction on sequences is needed. -/
theorem c9_qr_phone_amended (sid uid : String) (evs : List CEvent) :
    ∀ st : OrchState, phoneOf st.db sid = none → noQrAfterReady evs = true →
      (phoneOf (applyEvents sid uid st evs).db sid = none ∨
       qrOf (applyEvents sid uid st evs).db sid = none) := by
  induction evs with
  | nil =>
    intro st hp _
    exact Or.inl hp
  | cons e rest ih =>
    intro st hp hsafe
    cases e with
    | qr q =>
      have hsafe2 : noQrAfterReady rest = true := by
        simpa [noQrAfterReady] using hsafe
      have hp2 : phoneOf (applyEvent sid uid st (CEvent.qr q)).db sid = none := by
        show phoneOf (dbUpdate st.db sid
          (fun r => { r with status := SessionStatus.QR_SCAN_PENDING, qrCode := some q })) sid = none
        rw [phoneOf_dbUpdate_preserve st.db sid
          (fun r => { r with status := SessionStatus.QR_SCAN_PENDING, qrCode := some q })
          (fun _ => rfl) (fun _ => rfl)]
        exact hp
      exact ih (applyEvent sid uid st (CEvent.qr q)) hp2 hsafe2
    | authFailure =>
      have hsafe2 : noQrAfterReady rest = true := by
        simpa [noQrAfterReady] using hsafe
      have hp2 : phoneOf (applyEvent sid uid st CEvent.authFailure).db sid = none := by
        show phoneOf (dbUpdate st.db sid
          (fun r => { r with status := SessionStatus.FAILED })) sid = none
        rw [phoneOf_dbUpdate_preserve st.db sid
          (fun r => { r with status := SessionStatus.FAILED }) (fun _ => rfl) (fun _ => rfl)]
        exact hp
      exact ih (applyEvent sid uid st CEvent.authFailure) hp2 hsafe2
    | disconnected =>
      have hsafe2 : noQrAfterReady rest = true := by
        simpa [noQrAfterReady] using hsafe
      have hp2 : phoneOf (applyEvent sid uid st CEvent.disconnected).db sid = none := by
        show phoneOf (dbUpdate st.db sid
          (fun r => { r with status := SessionStatus.DISCONNECTED })) sid = none
        rw [phoneOf_dbUpdate_preserve st.db sid
          (fun r => { r with status := SessionStatus.DISCONNECTED }) (fun _ => rfl) (fun _ => rfl)]
        exact hp
      exact ih (applyEvent sid uid st CEvent.disconnected) hp2 hsafe2
    | ready p =>
      have hall : rest.all (fun e => !(isQrEvent e)) = true := by
        simpa [noQrAfterReady] using hsafe
      have hq2 : qrOf (applyEvent sid uid st (CEvent.ready p)).db sid = none :=
        qrOf_dbUpdate_none st.db sid
          (fun r => { r with status := SessionStatus.READY, phoneNumber := some p, qrCode := none })
          (fun _ => rfl) (fun _ => rfl)
      exact Or.inr (applyEvents_qr_none sid uid rest
        (applyEvent sid uid st (CEvent.ready p)) hq2 hall)

/-- Witness for C9 amended: a pairing sequence (qr, then ready) on a fresh
session record. -/
theorem c9_qr_phone_amended_witness :
    (phoneOf stInit1.db "s1" = none ∧
     noQrAfterReady [CEvent.qr "QRA", CEvent.ready "15550001"] = true) ∧
    (phoneOf (applyEvents "s1" "u1" stInit1
        [CEvent.qr "QRA", CEvent.ready "15550001"]).db "s1" = none ∨
     qrOf (applyEvents "s1" "u1" stInit1
        [CEvent.qr "QRA", CEvent.ready "15550001"]).db "s1" = none) :=
  ⟨⟨by decide, by decide⟩,
   c9_qr_phone_amended "s1" "u1" [CEvent.qr "QRA", CEvent.ready "15550001"] stInit1
     (by decide) (by decide)⟩



/-! Lemmas and theorems for the synchronization pass (C4). -/

/-- Math.round of a / d is monotone in the numerator. -/
theorem jsRound_mono (a b d : Nat) (h : a ≤ b) : jsRound a d ≤ jsRound b d := by
  unfold jsRound
  exact Nat.div_le_div_right (by omega)

/-- Math.round of (d * 100) / d is exactly 100 for positive d. -/
theorem jsRound_hundred (d : Nat) (h : 0 < d) : jsRound (d * 100) d = 100 := by
  unfold jsRound
  have h1 : 2 * (d * 100) + d = d + 2 * d * 100 := by ring
  rw [h1, Nat.add_mul_div_left _ _ (by omega), Nat.div_eq_of_lt (by omega)]

/-- The per-message sync insert touches only the message collection. -/
theorem syncIngestMessage_db_events (st : OrchState) (sid cid : String) (m : WMessage) :
    (syncIngestMessage st sid cid m).db = st.db ∧
    (syncIngestMessage st sid cid m).events = st.events := by
  unfold syncIngestMessage
  by_cases h : hasMessageRow st.messages sid m.idSerialized = true
  · rw [if_pos h]
    exact ⟨rfl, rfl⟩
  · rw [if_neg h]
    exact ⟨rfl, rfl⟩

/-- Ingesting one conversation window of messages touches only the message
collection. -/
theorem syncIngestFold_db_events (sid cid : String) (ms : List WMessage) :
    ∀ st : OrchState,
      (ms.foldl (fun acc m => syncIngestMessage acc sid cid m) st).db = st.db ∧
      (ms.foldl (fun acc m => syncIngestMessage acc sid cid m) st).events = st.events := by
  induction ms with
  | nil =>
    intro st
    exact ⟨rfl, rfl⟩
  | cons m t ih =>
    intro st
    rw [List.foldl_cons]
    obtain ⟨h1, h2⟩ := ih (syncIngestMessage st sid cid m)
    obtain ⟨g1, g2⟩ := syncIngestMessage_db_events st sid cid m
    exact ⟨h1.trans g1, h2.trans g2⟩

/-- One conversation iteration: the session-store change is exactly the
per-conversation progress write, and the emission is exactly one sync_progress
event — independently of how many messages the conversation window holds. -/
theorem syncOneChat_db_events (st : OrchState) (sid uid : String) (c : SyncChat) (p : Nat) :
    (syncOneChat st sid uid c p).db =
      dbUpdate st.db sid (fun r => { r with syncProgress := p }) ∧
    (syncOneChat st sid uid c p).events =
      st.events ++ [FanoutEvent.sync_progress sid uid p] := by
  obtain ⟨h1, h2⟩ := syncIngestFold_db_events sid c.chatId c.messages
    { st with chats := chatSyncUpsert st.chats sid c }
  dsimp only [syncOneChat]
  rw [h1, h2]
  exact ⟨rfl, rfl⟩

/-- Prepending the image of 0 to a shifted map over a range is the map over the
extended range. -/
theorem cons_map_range_succ {α : Type} (h : Nat → α) (n : Nat) :
    h 0 :: (List.range n).map (fun k => h (k + 1)) = (List.range (n + 1)).map h := by
  rw [List.range_succ_eq_map, List.map_cons, List.map_map]
  rfl

/-- The conversation loop emits exactly one sync_progress event per conversation
with payload Math.round(((i + 1) / total) * 100), and preserves the list of
stored sessionIds. -/
theorem syncChatsLoop_spec (sid uid : String) (total : Nat) (l : List SyncChat) :
    ∀ (st : OrchState) (i : Nat),
      (syncChatsLoop sid uid total st l i).events =
        st.events ++ (List.range l.length).map
          (fun k => FanoutEvent.sync_progress sid uid (jsRound ((i + k + 1) * 100) total)) ∧
      (syncChatsLoop sid uid total st l i).db.map SessionRec.sessionId
        = st.db.map SessionRec.sessionId := by
  induction l with
  | nil =>
    intro st i
    constructor
    · show st.events = st.events ++ []
      rw [List.append_nil]
    · rfl
  | cons c t ih =>
    intro st i
    simp only [syncChatsLoop]
    obtain ⟨ihE, ihD⟩ := ih (syncOneChat st sid uid c (jsRound ((i + 1) * 100) total)) (i + 1)
    obtain ⟨hD, hE⟩ := syncOneChat_db_events st sid uid c (jsRound ((i + 1) * 100) total)
    constructor
    · rw [ihE, hE]
      have hmapeq : (List.range t.length).map
          (fun k => FanoutEvent.sync_progress sid uid (jsRound ((i + 1 + k + 1) * 100) total)) =
          (List.range t.length).map
          (fun k => FanoutEvent.sync_progress sid uid (jsRound ((i + (k + 1) + 1) * 100) total)) := by
        apply List.map_congr_left
        intro k _
        have hk : i + 1 + k + 1 = i + (k + 1) + 1 := by omega
        rw [hk]
      rw [hmapeq, List.append_assoc, List.singleton_append, List.length_cons,
          ← cons_map_range_succ
            (fun k => FanoutEvent.sync_progress sid uid (jsRound ((i + k + 1) * 100) total))
            t.length]
    · rw [ihD, hD,
          dbUpdate_map_sessionId st.db sid
            (fun r => { r with syncProgress := jsRound ((i + 1) * 100) total })
            (fun _ => rfl)]

/-- startBackgroundSync runs the pass body whenever the session record exists. -/
theorem startBackgroundSync_eq_of_found (st : OrchState) (sid uid : String)
    (chats : List SyncChat) (r : SessionRec) (hr : findSession st.db sid = some r) :
    startBackgroundSync st sid uid chats = syncPassBody st sid uid chats := by
  unfold startBackgroundSync
  rw [hr]

/-- progressEvents keeps the payload of a leading sync_progress emission. -/
theorem progressEvents_cons_progress (sid uid : String) (p : Nat) (t : List FanoutEvent) :
    progressEvents (FanoutEvent.sync_progress sid uid p :: t) = p :: progressEvents t := rfl

/-- progressEvents distributes over concatenation of emission logs. -/
theorem progressEvents_append (l1 l2 : List FanoutEvent) :
    progressEvents (l1 ++ l2) = progressEvents l1 ++ progressEvents l2 :=
  List.filterMap_append l1 l2 _

/-- progressEvents of a pure sync_progress emission run recovers the payloads. -/
theorem progressEvents_map_sync_progress (sid uid : String) (ps : List Nat) :
    progressEvents (ps.map (fun p => FanoutEvent.sync_progress sid uid p)) = ps := by
  induction ps with
  | nil => rfl
  | cons p t ih =>
    rw [List.map_cons, progressEvents_cons_progress, ih]

/-- The whole emission log of one pass body: progress 0, one progress value per
conversation, then the READY status. -/
theorem syncPassBody_events (st : OrchState) (sid uid : String) (chats : List SyncChat) :
    (syncPassBody st sid uid chats).events =
      st.events ++ (FanoutEvent.sync_progress sid uid 0 ::
        ((List.range chats.length).map
          (fun k => FanoutEvent.sync_progress sid uid (jsRound ((k + 1) * 100) chats.length))
         ++ [FanoutEvent.session_status sid uid SessionStatus.READY])) := by
  obtain ⟨hloopE, _⟩ := syncChatsLoop_spec sid uid chats.length chats (syncStart st sid uid) 0
  simp only [syncPassBody, syncFinish]
  rw [hloopE]
  simp only [syncStart]
  have hcongr : (List.range chats.length).map
      (fun k => FanoutEvent.sync_progress sid uid (jsRound ((0 + k + 1) * 100) chats.length)) =
      (List.range chats.length).map
      (fun k => FanoutEvent.sync_progress sid uid (jsRound ((k + 1) * 100) chats.length)) := by
    apply List.map_congr_left
    intro k _
    have hk : 0 + k + 1 = k + 1 := by omega
    rw [hk]
  rw [hcongr]
  simp [List.append_assoc]

/-- The final store state of one pass body: status READY, syncProgress 100. -/
theorem syncPassBody_db (st : OrchState) (sid uid : String) (chats : List SyncChat)
    (hsess : (findSession st.db sid).isSome = true) :
    statusOf (syncPassBody st sid uid chats).db sid = some SessionStatus.READY ∧
    syncProgressOf (syncPassBody st sid uid chats).db sid = some 100 := by
  obtain ⟨_, hloopD⟩ := syncChatsLoop_spec sid uid chats.length chats (syncStart st sid uid) 0
  have hpres : (findSession (syncChatsLoop sid uid chats.length
      (syncStart st sid uid) chats 0).db sid).isSome = true := by
    rw [findSession_isSome_iff, hloopD]
    simp only [syncStart]
    rw [dbUpdate_map_sessionId st.db sid
      (fun r => { r with status := SessionStatus.SYNCING, syncProgress := 0 }) (fun _ => rfl)]
    exact (findSession_isSome_iff st.db sid).mp hsess
  obtain ⟨r2, hr2⟩ := Option.isSome_iff_exists.mp hpres
  have hfin : findSession (syncPassBody st sid uid chats).db sid =
      some { r2 with status := SessionStatus.READY, syncProgress := 100 } := by
    simp only [syncPassBody, syncFinish]
    rw [findSession_dbUpdate_self _ sid
      (fun r => { r with status := SessionStatus.READY, syncProgress := 100 })
      (fun _ => rfl), hr2]
    rfl
  constructor
  · unfold statusOf
    rw [hfin]
    rfl
  · unfold syncProgressOf
    rw [hfin]
    rfl

/-- The emitted progress sequence of a pass is monotonically non-decreasing. -/
theorem progressSeq_monotone (n i j p q : Nat) (hij : i ≤ j)
    (hp : (0 :: (List.range n).map (fun k => jsRound ((k + 1) * 100) n))[i]? = some p)
    (hq : (0 :: (List.range n).map (fun k => jsRound ((k + 1) * 100) n))[j]? = some q) :
    p ≤ q := by
  cases i with
  | zero =>
    rw [List.getElem?_cons_zero] at hp
    cases hp
    exact Nat.zero_le q
  | succ i2 =>
    cases j with
    | zero => omega
    | succ j2 =>
      rw [List.getElem?_cons_succ] at hp hq
      obtain ⟨hi2, hpv⟩ := List.getElem?_eq_some_iff.mp hp
      obtain ⟨hj2, hqv⟩ := List.getElem?_eq_some_iff.mp hq
      rw [List.getElem_map] at hpv hqv
      rw [List.getElem_range] at hpv hqv
      rw [← hpv, ← hqv]
      exact jsRound_mono _ _ _ (by omega)

/-- The last emitted progress value of a non-empty pass is exactly 100. -/
theorem progressSeq_getLast (n : Nat) (h : 0 < n) :
    (0 :: (List.range n).map (fun k => jsRound ((k + 1) * 100) n)).getLast? = some 100 := by
  obtain ⟨m, rfl⟩ := Nat.exists_eq_succ_of_ne_zero (Nat.pos_iff_ne_zero.mp h)
  rw [List.range_succ, List.map_append,
      show (List.map (fun k => jsRound ((k + 1) * 100) (m + 1)) [m])
        = [jsRound ((m + 1) * 100) (m + 1)] from rfl,
      ← List.cons_append, List.getLast?_concat,
      jsRound_hundred (m + 1) (Nat.succ_pos m)]

/-- Claim C4: within one sync pass over a non-empty conversation list, the
emitted progress sequence starts at 0 and holds one value per conversation —
Math.round(100 * processed / total), independent of per-conversation message
counts — it is monotonically non-decreasing, it ends at exactly 100, the pass
leaves status READY with persisted syncProgress 100, and a 3-conversation pass
emits 33, 67, 100 after the conversations. -/
theorem c4_sync_progress (st : OrchState) (sid uid : String) (chats : List SyncChat)
    (hsess : (findSession st.db sid).isSome = true)
    (hev : st.events = [])
    (hne : chats ≠ []) :
    progressEvents (startBackgroundSync st sid uid chats).events =
      0 :: (List.range chats.length).map (fun k => jsRound ((k + 1) * 100) chats.length) ∧
    (∀ i j p q : Nat, i ≤ j →
      (progressEvents (startBackgroundSync st sid uid chats).events)[i]? = some p →
      (progressEvents (startBackgroundSync st sid uid chats).events)[j]? = some q →
      p ≤ q) ∧
    (progressEvents (startBackgroundSync st sid uid chats).events).getLast? = some 100 ∧
    statusOf (startBackgroundSync st sid uid chats).db sid = some SessionStatus.READY ∧
    syncProgressOf (startBackgroundSync st sid uid chats).db sid = some 100 ∧
    (chats.length = 3 →
      progressEvents (startBackgroundSync st sid uid chats).events = [0, 33, 67, 100]) := by
  obtain ⟨r, hr⟩ := Option.isSome_iff_exists.mp hsess
  rw [startBackgroundSync_eq_of_found st sid uid chats r hr]
  have hn : 0 < chats.length := List.length_pos.mpr hne
  have hseq : progressEvents (syncPassBody st sid uid chats).events =
      0 :: (List.range chats.length).map (fun k => jsRound ((k + 1) * 100) chats.length) := by
    rw [syncPassBody_events, hev, List.nil_append]
    rw [progressEvents_cons_progress, progressEvents_append]
    have hmap : (List.range chats.length).map
        (fun k => FanoutEvent.sync_progress sid uid (jsRound ((k + 1) * 100) chats.length)) =
        ((List.range chats.length).map (fun k => jsRound ((k + 1) * 100) chats.length)).map
          (fun p => FanoutEvent.sync_progress sid uid p) := by
      rw [List.map_map]
      rfl
    rw [hmap, progressEvents_map_sync_progress]
    show 0 :: (_ ++ progressEvents [FanoutEvent.session_status sid uid SessionStatus.READY]) = _
    rw [show progressEvents [FanoutEvent.session_status sid uid SessionStatus.READY] = []
          from rfl,
        List.append_nil]
  obtain ⟨hstat, hprog⟩ := syncPassBody_db st sid uid chats hsess
  refine ⟨hseq, ?_, ?_, hstat, hprog, ?_⟩
  · intro i j p q hij hp hq
    rw [hseq] at hp hq
    exact progressSeq_monotone chats.length i j p q hij hp hq
  · rw [hseq]
    exact progressSeq_getLast chats.length hn
  · intro h3
    rw [hseq, h3]
    decide

/-- Witness for C4: a concrete pass over three conversations with 1, 0 and 2
recent messages. -/
theorem c4_sync_progress_witness :
    ((findSession stInit1.db "s1").isSome = true ∧ stInit1.events = [] ∧ chats3 ≠ []) ∧
    (progressEvents (startBackgroundSync stInit1 "s1" "u1" chats3).events =
      0 :: (List.range chats3.length).map (fun k => jsRound ((k + 1) * 100) chats3.length) ∧
    (∀ i j p q : Nat, i ≤ j →
      (progressEvents (startBackgroundSync stInit1 "s1" "u1" chats3).events)[i]? = some p →
      (progressEvents (startBackgroundSync stInit1 "s1" "u1" chats3).events)[j]? = some q →
      p ≤ q) ∧
    (progressEvents (startBackgroundSync stInit1 "s1" "u1" chats3).events).getLast?
      = some 100 ∧
    statusOf (startBackgroundSync stInit1 "s1" "u1" chats3).db "s1"
      = some SessionStatus.READY ∧
    syncProgressOf (startBackgroundSync stInit1 "s1" "u1" chats3).db "s1" = some 100 ∧
    (chats3.length = 3 →
      progressEvents (startBackgroundSync stInit1 "s1" "u1" chats3).events
        = [0, 33, 67, 100])) :=
  ⟨⟨by decide, by decide, by decide⟩,
   c4_sync_progress stInit1 "s1" "u1" chats3 (by decide) (by decide) (by decide)⟩

end WhatsNya
